import Mathlib

/-
Verification of the tusk storage and authentication layer.

The definitions below are a shallow embedding of the Rust sources:
  tusk-server/src/api/storage.rs   (PathInfo and the storage CRUD handlers)
  tusk-server/src/api/session.rs   (SessionResource)
  tusk-server/src/api/account.rs   (AccountPasswordResource)
  tusk-server/src/error.rs         (HttpError and with_authentication_failure)
  tusk-core/src/resources/password_reset.rs (PasswordResetRequest)
  tusk-core/src/resources/user.rs  (User)

Machine-level collaborators are modelled as follows:
  - the filesystem is a finite association list from absolute paths
    (lists of segments) to nodes; symlinks are not modelled, so
    Path::canonicalize becomes lexical resolution of "." and ".." plus an
    existence check, which agrees with realpath on symlink-free trees;
  - bcrypt hashes are modelled symbolically: the hash of a plaintext is a
    constructor application remembering the plaintext, and verification is
    equality of plaintexts; each call of bcrypt::hash or bcrypt::verify
    counts as one unit of hashing cost;
  - database tables are lists of rows; Uuid values are natural numbers.
-/

set_option autoImplicit false

/-- Decidable equality for `Except`, used to settle concrete runs of the
handlers by `decide`. -/
instance exceptDecidableEq {ε α : Type} [DecidableEq ε] [DecidableEq α] :
    DecidableEq (Except ε α)
  | .error e, .error f =>
    if h : e = f then .isTrue (congrArg Except.error h)
    else .isFalse fun hh => h (Except.error.inj hh)
  | .error _, .ok _ => .isFalse fun hh => Except.noConfusion hh
  | .ok _, .error _ => .isFalse fun hh => Except.noConfusion hh
  | .ok a, .ok b =>
    if h : a = b then .isTrue (congrArg Except.ok h)
    else .isFalse fun hh => h (Except.ok.inj hh)

namespace Tusk

/-- HTTP status codes used by the handlers under verification. -/
inductive HttpStatus where
  | ok
  | created
  | accepted
  | noContent
  | badRequest
  | unauthorized
  | forbidden
  | notFound
  | conflict
  | unprocessableEntity
  | internalServerError
deriving DecidableEq, Repr

/-- Numeric value of each HTTP status code. -/
def HttpStatus.code : HttpStatus → Nat
  | .ok => 200
  | .created => 201
  | .accepted => 202
  | .noContent => 204
  | .badRequest => 400
  | .unauthorized => 401
  | .forbidden => 403
  | .notFound => 404
  | .conflict => 409
  | .unprocessableEntity => 422
  | .internalServerError => 500

/-! ## Filesystem model

A filesystem is an association list from absolute paths (lists of segments,
rooted at the filesystem root) to nodes.  Directories carry no payload,
files carry their content. -/

/-- A filesystem node: a directory or a file with its content. -/
inductive FsNode where
  | dir
  | file (content : String)
deriving DecidableEq, Repr

/-- A filesystem: a finite map from absolute paths to nodes. -/
abbrev Fs := List (List String × FsNode)

/-- Looks up the node stored at path `p`. -/
def fsFind (fs : Fs) (p : List String) : Option FsNode :=
  (fs.find? (fun e => e.1 = p)).map (fun e => e.2)

/-- Stack-based worker for lexical path cleaning: skips empty segments and
".", pops one segment on "..".  The accumulator holds the cleaned segments
in reverse order. -/
def cleanAux : List String → List String → List String
  | acc, [] => acc.reverse
  | acc, s :: rest =>
    if s = "" ∨ s = "." then cleanAux acc rest
    else if s = ".." then cleanAux acc.tail rest
    else cleanAux (s :: acc) rest

/-- Lexically cleans a path: resolves "." and ".." segments and drops empty
segments, without touching the filesystem. -/
def cleanPath (p : List String) : List String :=
  cleanAux [] p

/-- Worker for `splitPath`: accumulates the current segment in reverse. -/
def splitPathAux : List Char → List Char → List String
  | acc, [] => [String.mk acc.reverse]
  | acc, c :: rest =>
    if c = '/' then String.mk acc.reverse :: splitPathAux [] rest
    else splitPathAux (c :: acc) rest

/-- Splits a slash-separated request path into segments, as Path components
do in the source. -/
def splitPath (s : String) : List String :=
  splitPathAux [] s.toList

/-- Character-list run test: `leadsWith pre s` holds when `pre` is an
initial run of `s`. -/
def leadsWith : List Char → List Char → Bool
  | [], _ => true
  | _ :: _, [] => false
  | a :: as, b :: bs => a = b && leadsWith as bs

/-- Models `str::starts_with` from the source. -/
def strStartsWith (s pre : String) : Bool :=
  leadsWith pre.toList s.toList

/-- Component-wise path containment: `isUnder r p` holds when `r` is an
initial run of `p`.  Models `Path::starts_with` from the source. -/
def isUnder : List String → List String → Bool
  | [], _ => true
  | _ :: _, [] => false
  | a :: as, b :: bs => a = b && isUnder as bs

/-- Models `Path::canonicalize` on a symlink-free tree: the path is
lexically resolved and the result must exist in the filesystem, otherwise
the call fails. -/
def canonicalize (fs : Fs) (p : List String) : Option (List String) :=
  let q := cleanPath p
  if (fsFind fs q).isSome then some q else none

/-- Number of ancestors of an absolute path, itself included, down to the
filesystem root; models `Path::ancestors().count()` for absolute paths. -/
def ancestorsCount (p : List String) : Nat :=
  p.length + 1

/-! ## PathInfo: the storage path extractor

Embedding of `PathInfo` and `PathInfo::from_request` from
tusk-server/src/api/storage.rs.  The Rust extractor reads the session
(the "username" entry), the storage root from the configuration, and the
raw request path, then:
  1. without a session entry it fails Unauthorized
     (SessionRead::try_from);
  2. it checks that the RAW request path string starts with ".public/" or
     with the initiator name followed by "/", else Forbidden;
  3. it joins the raw path onto the root and canonicalizes, mapping
     failure to NotFound;
  4. it rejects canonical results that escape the root with NotFound;
  5. it computes the depth as the difference of ancestor counts, rejects
     depth 0 with Forbidden, then stores depth - 1. -/

/-- A resolved, authorized storage path. -/
structure PathInfo where
  depth : Nat
  root : List String
  path : List String
deriving DecidableEq, Repr

/-- Embedding of `PathInfo::from_request`.  `root` is the already
canonicalized storage root, `session` the "username" entry of the session,
`queried` the raw value of the "filename" match parameter. -/
def PathInfo.from_request (fs : Fs) (root : List String)
    (session : Option String) (queried : String) :
    Except HttpStatus PathInfo :=
  match session with
  | none => .error .unauthorized
  | some initiator =>
    if ¬ (strStartsWith queried ".public/" ∨ strStartsWith queried (initiator ++ "/")) then
      .error .forbidden
    else
      match canonicalize fs (root ++ splitPath queried) with
      | none => .error .notFound
      | some path =>
        if ¬ isUnder root path then .error .notFound
        else
          let depth := ancestorsCount path - ancestorsCount root
          if depth = 0 then .error .forbidden
          else .ok { depth := depth - 1, root := root, path := path }

/-! ## Filesystem operations

Models of the std::fs primitives used by the handlers, acting on the
association-list filesystem.  Paths handed to the primitives are lexically
resolved by the OS, so each primitive cleans its argument first. -/

/-- Error kinds of the filesystem primitives, mirroring std::io::ErrorKind
as matched by the source. -/
inductive IoErrorKind where
  | alreadyExists
  | notFound
  | permissionDenied
  | other
deriving DecidableEq, Repr

/-- Inserts or replaces the node at path `q`. -/
def fsSet (fs : Fs) (q : List String) (node : FsNode) : Fs :=
  (q, node) :: fs.filter (fun e => e.1 ≠ q)

/-- Models `std::fs::create_dir`: fails with AlreadyExists when the target
exists, with NotFound when the parent is missing, and creates the
directory otherwise.  A parent that is a regular file yields a generic
error. -/
def fsCreateDir (fs : Fs) (p : List String) : Except IoErrorKind Fs :=
  let q := cleanPath p
  if (fsFind fs q).isSome then .error .alreadyExists
  else
    match fsFind fs q.dropLast with
    | some .dir => .ok (fsSet fs q .dir)
    | some (.file _) => .error .other
    | none => .error .notFound

/-- Models `tempfile::NamedTempFile::persist`, a rename onto the target
path: it fails when the parent directory is missing or is a file, fails
when the target is a directory, and otherwise writes the content, silently
replacing an existing file. -/
def fsPersist (fs : Fs) (p : List String) (content : String) :
    Except IoErrorKind Fs :=
  let q := cleanPath p
  match fsFind fs q.dropLast with
  | some .dir =>
    match fsFind fs q with
    | some .dir => .error .other
    | _ => .ok (fsSet fs q (.file content))
  | some (.file _) => .error .other
  | none => .error .notFound

/-- Models `std::fs::remove_dir_all`: removes the directory and everything
below it, failing when the target is not an existing directory. -/
def fsRemoveDirAll (fs : Fs) (p : List String) : Except IoErrorKind Fs :=
  let q := cleanPath p
  match fsFind fs q with
  | some .dir => .ok (fs.filter (fun e => ¬ isUnder q e.1))
  | some (.file _) => .error .other
  | none => .error .notFound

/-- Models `std::fs::remove_file`: removes a regular file, failing when the
target is missing or is a directory. -/
def fsRemoveFile (fs : Fs) (p : List String) : Except IoErrorKind Fs :=
  let q := cleanPath p
  match fsFind fs q with
  | some (.file _) => .ok (fs.filter (fun e => e.1 ≠ q))
  | some .dir => .error .other
  | none => .error .notFound

/-- Models `Path::is_dir`. -/
def fsIsDir (fs : Fs) (p : List String) : Bool :=
  fsFind fs (cleanPath p) = some .dir

/-! ## Storage CRUD operations on a resolved PathInfo

Embeddings of `PathInfo::create_dir`, `PathInfo::create_file` and
`PathInfo::delete` from tusk-server/src/api/storage.rs.  Each operation
takes the current filesystem and returns the updated filesystem on
success. -/

/-- Embedding of `PathInfo::create_dir`.  The source rejects names
containing a path separator and the names "." and "..." (note: the source
compares against three dots, not two), then calls `std::fs::create_dir`
and maps AlreadyExists to Conflict, NotFound to NotFound and every other
error to InternalServerError. -/
def PathInfo.create_dir (fs : Fs) (pi : PathInfo) (name : String) :
    Except HttpStatus (Fs × PathInfo) :=
  if name.toList.any (fun c => c = '/' ∨ c = '\\') ∨ name = "." ∨ name = "..." then
    .error .badRequest
  else
    match fsCreateDir fs (pi.path ++ [name]) with
    | .ok fs1 =>
      .ok (fs1, { pi with path := pi.path ++ [name], depth := pi.depth + 1 })
    | .error .alreadyExists => .error .conflict
    | .error .notFound => .error .notFound
    | .error _ => .error .internalServerError

/-- Embedding of `PathInfo::create_file`.  The file name comes from the
multipart payload and may be absent (BadRequest); the name validation is
the same as for directories.  The upload is persisted with
`NamedTempFile::persist`, whose errors are all mapped to
InternalServerError. -/
def PathInfo.create_file (fs : Fs) (pi : PathInfo)
    (fileName : Option String) (content : String) :
    Except HttpStatus (Fs × PathInfo) :=
  match fileName with
  | none => .error .badRequest
  | some name =>
    if name.toList.any (fun c => c = '/' ∨ c = '\\') ∨ name = "." ∨ name = "..." then
      .error .badRequest
    else
      match fsPersist fs (pi.path ++ [name]) content with
      | .ok fs1 =>
        .ok (fs1, { pi with path := pi.path ++ [name], depth := pi.depth + 1 })
      | .error _ => .error .internalServerError

/-- Embedding of `PathInfo::delete`.  Depth 0 is rejected with NotFound;
directories are removed recursively and files individually, any
filesystem error being mapped to NotFound. -/
def PathInfo.delete (fs : Fs) (pi : PathInfo) : Except HttpStatus Fs :=
  if pi.depth = 0 then .error .notFound
  else if fsIsDir fs pi.path then
    match fsRemoveDirAll fs pi.path with
    | .ok fs1 => .ok fs1
    | .error _ => .error .notFound
  else
    match fsRemoveFile fs pi.path with
    | .ok fs1 => .ok fs1
    | .error _ => .error .notFound

/-- The DELETE handler of StorageResource: runs `PathInfo::delete` and
leaves the filesystem unchanged when it errors. -/
def StorageResource.runDelete (fs : Fs) (pi : PathInfo) :
    Except HttpStatus Unit × Fs :=
  match PathInfo.delete fs pi with
  | .ok fs1 => (.ok (), fs1)
  | .error e => (.error e, fs)

/-! ## Password hashing model

bcrypt is modelled symbolically: a stored hash remembers the plaintext it
was computed from, and verification compares plaintexts.  Every call of
bcrypt::hash or bcrypt::verify costs one unit; the cost counters let
theorems talk about which branches execute a hash computation. -/

/-- A bcrypt password hash, modelled as the remembered plaintext. -/
inductive StoredHash where
  | bcrypt (plain : String)
deriving DecidableEq, Repr

/-- Models `bcrypt::hash` with the default cost. -/
def bcryptHash (plain : String) : StoredHash :=
  .bcrypt plain

/-- Models `bcrypt::verify`. -/
def bcryptVerify (password : String) : StoredHash → Bool
  | .bcrypt plain => password = plain

/-! ## Password reset table

Embedding of `PasswordResetRequest` from
tusk-core/src/resources/password_reset.rs.  Rows live in a list standing
for the password_reset table; Uuid values are naturals and timestamps are
integers.  Each operation takes the current time as a parameter. -/

/-- A row of the password_reset table. -/
structure PasswordResetRow where
  request_id : Nat
  user_id : Nat
  expiration : Int
deriving DecidableEq, Repr

namespace PasswordResetRequest

/-- Embedding of `PasswordResetRequest::update_table`: deletes every row
whose expiration lies strictly before `now`. -/
def update_table (now : Int) (t : List PasswordResetRow) :
    List PasswordResetRow :=
  t.filter (fun r => ¬ (r.expiration < now))

/-- Embedding of `PasswordResetRequest::create`: purges the expired rows,
then inserts a fresh row for the user.  The fresh request id is a
parameter (random in the source); the expiration default of the table
schema is now plus 24 hours, modelled from the spec because the SQL
migration is not among the sources. -/
def create (now : Int) (t : List PasswordResetRow) (uid fresh : Nat) :
    PasswordResetRow × List PasswordResetRow :=
  let t1 := update_table now t
  let row : PasswordResetRow :=
    { request_id := fresh, user_id := uid, expiration := now + 86400 }
  (row, t1 ++ [row])

/-- Embedding of `PasswordResetRequest::valid`. -/
def valid (now : Int) (r : PasswordResetRow) : Bool :=
  now ≤ r.expiration

/-- Embedding of `PasswordResetRequest::from_token`: purges the expired
rows, then selects the first row matching both the expiration bound and
the token in the same query; absence yields Unauthorized.  Returns the
outcome together with the table left behind by the transaction. -/
def from_token (now : Int) (t : List PasswordResetRow) (tok : Nat) :
    Except HttpStatus PasswordResetRow × List PasswordResetRow :=
  let t1 := update_table now t
  match t1.find? (fun r => now ≤ r.expiration ∧ r.request_id = tok) with
  | some r => (.ok r, t1)
  | none => (.error .unauthorized, t1)

/-- Embedding of `PasswordResetRequest::delete`: removes the row with the
given request id, then purges the expired rows. -/
def deleteRow (now : Int) (t : List PasswordResetRow) (rid : Nat) :
    List PasswordResetRow :=
  update_table now (t.filter (fun r => r.request_id ≠ rid))

end PasswordResetRequest

/-! ## User table

Embedding of `User` from tusk-core/src/resources/user.rs (id, email,
display name, password hash) and of the username-keyed variant used by
tusk-server/src/api/session.rs. -/

/-- A row of the user table, keyed by id and email. -/
structure UserRec where
  id : Nat
  email : String
  display : String
  password : StoredHash
deriving DecidableEq, Repr

namespace User

/-- Embedding of `User::from_email`. -/
def from_email (users : List UserRec) (email : String) : Option UserRec :=
  users.find? (fun u => u.email = email)

/-- Embedding of `User::from_id`. -/
def from_id (users : List UserRec) (uid : Nat) : Option UserRec :=
  users.find? (fun u => u.id = uid)

/-- Embedding of `User::verify_password`. -/
def verify_password (u : UserRec) (password : String) : Bool :=
  bcryptVerify password u.password

/-- Embedding of `User::update_password`: stores the bcrypt hash of the
new password for the user row with the same id. -/
def update_password (users : List UserRec) (uid : Nat) (password : String) :
    List UserRec :=
  users.map (fun v =>
    if v.id = uid then { v with password := bcryptHash password } else v)

/-- Embedding of `User::fake_password_check`: computes a bcrypt hash of
the attempted password at the default cost, for the constant-cost
disguise of authentication failures. -/
def fake_password_check (password : String) : StoredHash :=
  bcryptHash password

end User

/-! ## Session resource

Embedding of `SessionResource` from tusk-server/src/api/session.rs.  The
session is the "username" entry of the cookie-backed session store.  The
username-keyed user table of that module is modelled by looking up the
email field of `UserRec` (the source snapshot calls the key username).
Error responses are modelled with their status, headers and body, since
the anti-enumeration claim compares whole responses; the second component
of the result counts the bcrypt computations the call executed. -/

/-- The observable part of an HTTP error response: status code, extra
headers, body. -/
structure HttpErrorModel where
  status : HttpStatus
  headers : List (String × String)
  body : Option String
deriving DecidableEq, Repr

/-- The uniform authentication-failure response: bare 401, no extra
headers, empty body.  Produced both by `HttpError::unauthorized()` and by
`with_authentication_failure` (which rewrites a 404 lookup failure). -/
def authFailure : HttpErrorModel :=
  { status := .unauthorized, headers := [], body := none }

namespace SessionResource

/-- Embedding of `SessionResource::post` (login).  The user is looked up
by name; a missing user flows through `with_authentication_failure`,
which rewrites the NotFound to the uniform 401 and runs
`fake_password_check` (one bcrypt computation).  A present user has the
password verified (one bcrypt computation); failure yields the same
uniform 401, success renews the session, stores the username and answers
201 Created.  The second component counts executed bcrypt computations. -/
def post (users : List UserRec) (username password : String) :
    Except HttpErrorModel (HttpStatus × Option String) × Nat :=
  match User.from_email users username with
  | none =>
    let _check := User.fake_password_check password
    (.error authFailure, 1)
  | some u =>
    if User.verify_password u password then
      (.ok (.created, some username), 1)
    else
      (.error authFailure, 1)

/-- Embedding of `SessionResource::delete` (logout): clears and purges the
session and answers 200 OK with an empty body. -/
def delete (session : Option String) : HttpStatus × Option String :=
  match session with
  | _ => (.ok, none)

end SessionResource

/-! ## The /account/password resource

Embedding of `AccountPasswordResource::put` from
tusk-server/src/api/account.rs.  The caller session stores the id of the
authenticated user (the auth_session entry); the handler runs inside a
database transaction, so an error leaves the database unchanged — this is
modelled by returning no state on error.  Sent emails are recorded as
(recipient, subject) pairs.  The zxcvbn strength estimator is an external
crate and enters as an oracle parameter `score`. -/

/-- Embedding of `AccountProofType`. -/
inductive AccountProofType where
  | noProof
  | password
  | token
deriving DecidableEq, Repr

/-- Embedding of `AccountPasswordPutData`: the JSON body of the PUT
request. -/
structure AccountPasswordPutData where
  email : String
  password : Option String
  proof : Option String
  proof_type : AccountProofType
deriving DecidableEq, Repr

/-- The server state touched by the handler: the user and password-reset
tables, the session of the caller (the stored user id), the other live
sessions of the session store (never read nor written by the handler),
and the log of sent emails. -/
structure PutState where
  users : List UserRec
  resets : List PasswordResetRow
  callerSession : Option Nat
  otherSessions : List Nat
  sent : List (String × String)
deriving DecidableEq, Repr

/-- Response and post-state of a successful PUT /account/password. -/
structure PutOutcome where
  response : HttpStatus
  state : PutState
deriving DecidableEq, Repr

/-- Embedding of `verify_password_strength`: length must lie in [8, 70]
and the zxcvbn score against the disallowed inputs must be at least 3,
else 422 UnprocessableEntity. -/
def verify_password_strength (score : String → List String → Nat)
    (password : String) (user_inputs : List String) :
    Except HttpStatus Unit :=
  if password.length < 8 then .error .unprocessableEntity
  else if 70 < password.length then .error .unprocessableEntity
  else if score password user_inputs < 3 then .error .unprocessableEntity
  else .ok ()

/-- Models `Uuid::from_str` on the Nat-encoded Uuid values of the
embedding: a nonempty digit string parses to its numeric value, anything
else fails. -/
def parseUuid (s : String) : Option Nat :=
  if s.toList ≠ [] ∧ s.toList.all Char.isDigit then
    some (s.toList.foldl (fun n c => n * 10 + (c.toNat - 48)) 0)
  else
    none

/-- Embedding of the initiator computation of the handler:
`tusk.authenticate()` yields the caller session or Unauthorized, treated
as an anonymous caller; `auth_session.user(db)` re-fetches the user row,
whose absence is a NotFound error. -/
def authenticateUser (users : List UserRec) (session : Option Nat) :
    Except HttpStatus (Option UserRec) :=
  match session with
  | none => .ok none
  | some uid =>
    match User.from_id users uid with
    | some u => .ok (some u)
    | none => .error .notFound

/-- Embedding of the tail of every successful arm: `tusk.log_out()` clears
the session of the caller (and nothing else), then the prepared response
is returned. -/
def logOutAndOk (resp : HttpStatus) (st : PutState) :
    Except HttpStatus PutOutcome :=
  .ok { response := resp, state := { st with callerSession := none } }

/-- Embedding of `AccountPasswordResource::put`.  `score` is the zxcvbn
oracle, `now` the current time, `fresh` the request id a newly created
reset row would receive. -/
def AccountPasswordResource.put (score : String → List String → Nat)
    (now : Int) (fresh : Nat) (st : PutState)
    (data : AccountPasswordPutData) : Except HttpStatus PutOutcome :=
  match authenticateUser st.users st.callerSession with
  | .error e => .error e
  | .ok initiator =>
    match initiator, User.from_email st.users data.email,
          data.proof_type, data.proof, data.password with
    | some i, some t, .password, some proof, some password =>
      if i.id = t.id then
        -- Legitimate, well-formed password update request.
        if User.verify_password t proof then
          match verify_password_strength score password
              [t.email, t.display, "Tusk"] with
          | .error e => .error e
          | .ok _ =>
            logOutAndOk .noContent
              { st with
                users := User.update_password st.users t.id password,
                sent := st.sent ++ [(t.email, "Password change")] }
        else
          .error .unauthorized
      else
        -- Initiator and target are not the same user.
        .error .forbidden
    | some _, _, .password, some _, some _ =>
      -- Initiator present but no matching target user: still forbidden.
      .error .forbidden
    | none, _, .password, some _, some _ =>
      -- Not logged in.
      .error .unauthorized
    | none, some t, .noProof, none, none =>
      -- Legitimate, well-formed password recovery request.
      match PasswordResetRequest.create now st.resets t.id fresh with
      | (_request, resets1) =>
        logOutAndOk .accepted
          { st with resets := resets1,
                    sent := st.sent ++ [(t.email, "Password reset")] }
    | none, none, .noProof, none, none =>
      -- Unknown email: answer exactly as in the previous case.
      logOutAndOk .accepted st
    | none, some t, .token, some proof, some password =>
      -- Legitimate, well-formed password reset request.
      match parseUuid proof with
      | none => .error .badRequest
      | some tok =>
        match PasswordResetRequest.from_token now st.resets tok with
        | (.error e, _) => .error e
        | (.ok request, resets1) =>
          match verify_password_strength score password
              [t.email, t.display, "Tusk"] with
          | .error e => .error e
          | .ok _ =>
            logOutAndOk .noContent
              { st with
                users := User.update_password st.users t.id password,
                resets := PasswordResetRequest.deleteRow now resets1
                            request.request_id,
                sent := st.sent ++ [(t.email, "Password change")] }
    | _, _, _, _, _ =>
      .error .badRequest

/-! ## Claim theorems -/

/-- Claim C1: the claim states that the logical path is lexically cleaned
before the ownership check and that a request by account bob whose cleaned
path lies under the home root of account alice is rejected.  The code
checks the ownership prefixes on the RAW request string instead: the raw
path "bob/../alice/x.txt" starts with "bob/", passes the ownership gate,
canonicalizes to a path inside the storage root, and the request resolves
to a resource under the home root of alice — even though the cleaned path
["alice", "x.txt"] is not under the bob prefix and the two accounts
differ.  This contradicts the module documentation of storage.rs, which
forbids traversal and confines access to the public root and the own user
root. -/
theorem claim_C1_ownership_gate_on_raw_path :
    PathInfo.from_request
        [(["srv", "storage"], .dir), (["srv", "storage", "bob"], .dir),
         (["srv", "storage", "alice"], .dir),
         (["srv", "storage", "alice", "x.txt"], .file "secret")]
        ["srv", "storage"] (some "bob") "bob/../alice/x.txt" =
      .ok { depth := 1, root := ["srv", "storage"],
            path := ["srv", "storage", "alice", "x.txt"] } ∧
    cleanPath (splitPath "bob/../alice/x.txt") = ["alice", "x.txt"] ∧
    isUnder ["srv", "storage", "alice"]
      ["srv", "storage", "alice", "x.txt"] = true ∧
    "bob" ≠ "alice" := by
  refine ⟨by decide, by decide, by decide, by decide⟩

/-- Claim C3: the claim states no-clobber semantics for create_file with
the same error mapping as create_dir.  The code persists the upload with
NamedTempFile::persist, which silently replaces an existing file and
answers Created, and it maps every persist error to InternalServerError:
on a missing parent, create_file answers 500 where create_dir answers
404. -/
theorem claim_C3_create_file_clobbers :
    PathInfo.create_file
        [(["r"], .dir), (["r", "u"], .dir), (["r", "u", "a.txt"], .file "old")]
        { depth := 1, root := ["r"], path := ["r", "u"] }
        (some "a.txt") "new" =
      .ok ([(["r", "u", "a.txt"], .file "new"), (["r"], .dir), (["r", "u"], .dir)],
           { depth := 2, root := ["r"], path := ["r", "u", "a.txt"] }) ∧
    PathInfo.create_file [(["r"], .dir)]
        { depth := 1, root := ["r"], path := ["r", "missing"] }
        (some "b.txt") "x" =
      .error .internalServerError ∧
    PathInfo.create_dir [(["r"], .dir)]
        { depth := 1, root := ["r"], path := ["r", "missing"] } "b" =
      .error .notFound := by
  refine ⟨by decide, by decide, by decide⟩

/-- Claim C4, counterexample: the claim states that a Principal without
the directory role is rejected with Forbidden before anything else.  The
extractor never consults any role data — no role information exists
anywhere in its pipeline — and a request by an authenticated principal
(about whom no role assignment is known) succeeds. -/
theorem claim_C4_no_role_gate :
    PathInfo.from_request
        [(["srv", "storage"], .dir), (["srv", "storage", "user"], .dir),
         (["srv", "storage", "user", "f.txt"], .file "hi")]
        ["srv", "storage"] (some "user") "user/f.txt" =
      .ok { depth := 1, root := ["srv", "storage"],
            path := ["srv", "storage", "user", "f.txt"] } ∧
    (Except.ok { depth := 1, root := ["srv", "storage"],
                 path := ["srv", "storage", "user", "f.txt"] } :
        Except HttpStatus PathInfo) ≠ .error .forbidden := by
  refine ⟨by decide, by decide⟩

/-- Claim C4, amended: storage requests are gated by session
authentication only.  A request without a session entry fails Unauthorized
before any path processing, and an authenticated request proceeds with no
role check of any kind (roles never enter the extractor). -/
theorem claim_C4_amended_session_gate_only :
    (∀ (fs : Fs) (root : List String) (queried : String),
        PathInfo.from_request fs root none queried = .error .unauthorized) ∧
    PathInfo.from_request
        [(["s"], .dir), (["s", "nobody"], .dir),
         (["s", "nobody", "g.txt"], .file "x")]
        ["s"] (some "nobody") "nobody/g.txt" =
      .ok { depth := 1, root := ["s"], path := ["s", "nobody", "g.txt"] } := by
  exact ⟨fun _ _ _ => rfl, by decide⟩

/-- Claim C6: the claim states that the names "." and ".." are rejected
with BadRequest.  The source compares the name against "..." (three dots)
instead of "..", so the name ".." slips through the validation, reaches
std::fs::create_dir, resolves to the existing parent directory and comes
back as 409 Conflict instead of 400 BadRequest, while the meaningless
name "..." is the one rejected with 400. -/
theorem claim_C6_dotdot_not_rejected :
    PathInfo.create_dir [(["r"], .dir), (["r", "u"], .dir)]
        { depth := 0, root := ["r"], path := ["r", "u"] } ".." =
      .error .conflict ∧
    PathInfo.create_dir [(["r"], .dir), (["r", "u"], .dir)]
        { depth := 0, root := ["r"], path := ["r", "u"] } "..." =
      .error .badRequest ∧
    HttpStatus.conflict ≠ HttpStatus.badRequest := by
  refine ⟨by decide, by decide, by decide⟩

/-- Claim C7, counterexample: the claim states that deleting a resolved
path of depth 0 answers Forbidden.  The code answers NotFound: at a
concrete depth-0 path the result is the NotFound error, which differs
from the Forbidden error. -/
theorem claim_C7_depth_zero_not_forbidden :
    PathInfo.delete [(["r"], .dir), (["r", "u"], .dir)]
        { depth := 0, root := ["r"], path := ["r", "u"] } =
      .error .notFound ∧
    (Except.error HttpStatus.notFound : Except HttpStatus Fs) ≠
      .error .forbidden := by
  refine ⟨by decide, by decide⟩

/-- Claim C7, amended: for a resolved storage path with depth 0 the DELETE
handler answers NotFound (404, not Forbidden) and performs no filesystem
removal, leaving the filesystem untouched; for positive depth a missing
target also yields NotFound with the filesystem untouched. -/
theorem claim_C7_amended_depth_zero_delete (fs : Fs) (pi : PathInfo)
    (h0 : pi.depth = 0) :
    StorageResource.runDelete fs pi = (.error .notFound, fs) ∧
    ∀ (fs2 : Fs) (pi2 : PathInfo), pi2.depth ≠ 0 →
      fsFind fs2 (cleanPath pi2.path) = none →
      StorageResource.runDelete fs2 pi2 = (.error .notFound, fs2) := by
  constructor
  · simp [StorageResource.runDelete, PathInfo.delete, h0]
  · intro fs2 pi2 hd hfind
    simp [StorageResource.runDelete, PathInfo.delete, hd, fsIsDir,
      fsRemoveFile, hfind]

/-- Claim C7, witness for the amended theorem at concrete inputs: a
depth-0 home root is not removed and answers NotFound, and deleting a
missing file at depth 1 answers NotFound as well. -/
theorem claim_C7_amended_witness :
    StorageResource.runDelete [(["r"], .dir), (["r", "u"], .dir)]
        { depth := 0, root := ["r"], path := ["r", "u"] } =
      (.error .notFound, [(["r"], .dir), (["r", "u"], .dir)]) ∧
    StorageResource.runDelete [(["r"], .dir)]
        { depth := 1, root := ["r"], path := ["r", "gone.txt"] } =
      (.error .notFound, [(["r"], .dir)]) := by
  have h := claim_C7_amended_depth_zero_delete
    [(["r"], .dir), (["r", "u"], .dir)]
    { depth := 0, root := ["r"], path := ["r", "u"] } rfl
  exact ⟨h.1, h.2 [(["r"], .dir)]
    { depth := 1, root := ["r"], path := ["r", "gone.txt"] }
    (by decide) (by decide)⟩

/-- Claim C10, counterexample: the claim states that DELETE /session
answers 204 No Content.  The handler builds HttpResponse::Ok, whose
status code is 200, and the test suite of the source asserts exactly
that. -/
theorem claim_C10_delete_session_is_200 :
    (SessionResource.delete (some "user")).1.code = 200 ∧
    (SessionResource.delete (some "user")).1 ≠ HttpStatus.noContent := by
  refine ⟨by decide, by decide⟩

/-- Claim C10, amended: a DELETE /session request answers 200 OK (not
204) and clears the session, for every incoming session. -/
theorem claim_C10_amended_delete_session (session : Option String) :
    SessionResource.delete session = (.ok, none) ∧
    (SessionResource.delete session).1.code = 200 := by
  exact ⟨rfl, rfl⟩

/-- Claim C10, witness for the amended theorem: the amended statement at
a concrete live session. -/
theorem claim_C10_amended_witness :
    SessionResource.delete (some "alice") = (.ok, none) := by
  exact (claim_C10_amended_delete_session (some "alice")).1

set_option linter.unusedVariables false in
/-- Claim C2: in the token-proof branch of PUT /account/password (no
active session, proof type token, proof and new password present), the
account whose password is updated is the one looked up by the email field
of the request: for every valid reset token and every existing account
named by the email, the password update and the token deletion proceed
even when the user id stored in the token differs from the id of that
account — the hypothesis hdiff is never needed by the handler. -/
theorem claim_C2_token_user_not_compared
    (score : String → List String → Nat) (now : Int) (fresh tok : Nat)
    (st : PutState) (email tokStr pw : String)
    (target : UserRec) (r : PasswordResetRow) (t1 : List PasswordResetRow)
    (hsession : st.callerSession = none)
    (hemail : User.from_email st.users email = some target)
    (htok : parseUuid tokStr = some tok)
    (hft : PasswordResetRequest.from_token now st.resets tok = (.ok r, t1))
    (hdiff : r.user_id ≠ target.id)
    (hstrength : verify_password_strength score pw
      [target.email, target.display, "Tusk"] = .ok ()) :
    AccountPasswordResource.put score now fresh st
      { email := email, password := some pw, proof := some tokStr,
        proof_type := .token } =
      .ok { response := .noContent,
            state := { st with
              users := User.update_password st.users target.id pw,
              resets := PasswordResetRequest.deleteRow now t1 r.request_id,
              sent := st.sent ++ [(target.email, "Password change")],
              callerSession := none } } := by
  unfold AccountPasswordResource.put
  simp [authenticateUser, hsession, hemail, htok, hft, hstrength, logOutAndOk]

/-- Claim C2, witness: a concrete run in which the stored user id of the
token (99) differs from the id of the account named by the email (1), and
the handler still updates that account and deletes the token. -/
theorem claim_C2_witness :
    AccountPasswordResource.put (fun _ _ => 4) 0 0
      { users := [{ id := 1, email := "a@x", display := "A",
                    password := .bcrypt "oldA" }],
        resets := [{ request_id := 5, user_id := 99, expiration := 100 }],
        callerSession := none, otherSessions := [7], sent := [] }
      { email := "a@x", password := some "Str0ngPass!", proof := some "5",
        proof_type := .token } =
      .ok { response := .noContent,
            state := { users := [{ id := 1, email := "a@x", display := "A",
                                   password := .bcrypt "Str0ngPass!" }],
                       resets := [],
                       callerSession := none, otherSessions := [7],
                       sent := [("a@x", "Password change")] } } := by
  have h := claim_C2_token_user_not_compared (fun _ _ => 4) 0 0 5
    { users := [{ id := 1, email := "a@x", display := "A",
                  password := .bcrypt "oldA" }],
      resets := [{ request_id := 5, user_id := 99, expiration := 100 }],
      callerSession := none, otherSessions := [7], sent := [] }
    "a@x" "5" "Str0ngPass!"
    { id := 1, email := "a@x", display := "A", password := .bcrypt "oldA" }
    { request_id := 5, user_id := 99, expiration := 100 }
    [{ request_id := 5, user_id := 99, expiration := 100 }]
    rfl (by decide) (by decide) (by decide) (by decide) (by decide)
  exact h.trans (by decide)

/-- Claim C5: a login attempt with an unknown username flows through
with_authentication_failure, which rewrites the NotFound lookup error to
the uniform 401 and executes one bcrypt computation
(fake_password_check), exactly as the known-username wrong-password
attempt executes one bcrypt computation (verify_password) — no branch
returns with zero hash cost — and the two error responses are the same
value: same 401 status, same (empty) header list, same (empty) body. -/
theorem claim_C5_login_uniform_failure
    (users1 users2 : List UserRec) (name1 pw1 name2 pw2 : String)
    (u : UserRec)
    (h1 : User.from_email users1 name1 = none)
    (h2 : User.from_email users2 name2 = some u)
    (h3 : User.verify_password u pw2 = false) :
    SessionResource.post users1 name1 pw1 = (.error authFailure, 1) ∧
    SessionResource.post users2 name2 pw2 = (.error authFailure, 1) := by
  constructor
  · simp [SessionResource.post, h1]
  · simp [SessionResource.post, h2, h3]

/-- Claim C5, witness: a concrete unknown-username attempt and a concrete
wrong-password attempt, both answering the same bare 401 after one hash
computation each. -/
theorem claim_C5_witness :
    SessionResource.post [] "ghost" "x" = (.error authFailure, 1) ∧
    SessionResource.post
      [{ id := 1, email := "user", display := "User",
         password := .bcrypt "pw" }] "user" "wrong" =
      (.error authFailure, 1) :=
  claim_C5_login_uniform_failure []
    [{ id := 1, email := "user", display := "User", password := .bcrypt "pw" }]
    "ghost" "x" "user" "wrong"
    { id := 1, email := "user", display := "User", password := .bcrypt "pw" }
    (by decide) (by decide) (by decide)

/-- Claim C9: every successful PUT /account/password ends by clearing the
session of the caller (tusk.log_out runs on every success path, the 202
Accepted recovery answers included), and nothing else in the session
store is touched: the other live sessions are exactly those of the
pre-state. -/
theorem claim_C9_success_logs_out_caller_only
    (score : String → List String → Nat) (now : Int) (fresh : Nat)
    (st : PutState) (data : AccountPasswordPutData) (out : PutOutcome)
    (h : AccountPasswordResource.put score now fresh st data = .ok out) :
    out.state.callerSession = none ∧
    out.state.otherSessions = st.otherSessions := by
  unfold AccountPasswordResource.put logOutAndOk at h
  repeat' split at h
  all_goals simp_all
  all_goals subst h
  all_goals exact ⟨rfl, rfl⟩

/-- Claim C9, witness: a concrete authenticated password change; the
response is NoContent, the session of the caller is cleared and the other
live session (7) survives. -/
theorem claim_C9_witness :
    ({ response := .noContent,
       state := { users := [{ id := 1, email := "a@x", display := "A",
                              password := .bcrypt "Str0ngPass!" }],
                  resets := [], callerSession := none, otherSessions := [7],
                  sent := [("a@x", "Password change")] } } :
        PutOutcome).state.callerSession = none ∧
    ({ response := .noContent,
       state := { users := [{ id := 1, email := "a@x", display := "A",
                              password := .bcrypt "Str0ngPass!" }],
                  resets := [], callerSession := none, otherSessions := [7],
                  sent := [("a@x", "Password change")] } } :
        PutOutcome).state.otherSessions =
      ({ users := [{ id := 1, email := "a@x", display := "A",
                     password := .bcrypt "oldA" }],
         resets := [], callerSession := some 1, otherSessions := [7],
         sent := [] } : PutState).otherSessions :=
  claim_C9_success_logs_out_caller_only (fun _ _ => 4) 0 3
    { users := [{ id := 1, email := "a@x", display := "A",
                  password := .bcrypt "oldA" }],
      resets := [], callerSession := some 1, otherSessions := [7],
      sent := [] }
    { email := "a@x", password := some "Str0ngPass!", proof := some "oldA",
      proof_type := .password }
    { response := .noContent,
      state := { users := [{ id := 1, email := "a@x", display := "A",
                             password := .bcrypt "Str0ngPass!" }],
                 resets := [], callerSession := none, otherSessions := [7],
                 sent := [("a@x", "Password change")] } }
    (by decide)

end Tusk
